import Mathlib

/-!
Verification of the VLSS prompt-generation utility (`src/questions.py`).

The file shallowly embeds the module: the cyclic index selector
`get_cyclic_index`, the base-URL resolution performed at module load
(`computeBaseURL`, parameterised by the `GITHUB_RUN_NUMBER` environment
string), the static `scope_files` registry, and the four prompt builders
(`question_generator`, `validation_format`, `audit_format`, `scan_format`)
as explicit concatenations of their f-string literal chunks and
interpolations.
-/

namespace VLSS

/-- `MAX_REPO` from the source: the number of mirror identifiers. -/
def MAX_REPO : Int := 30

/-- `SOURCE_REPO` from the source. -/
def SOURCE_REPO : String := "Sui-Volo/volo-smart-contracts"

/-- `REPO_NAME` from the source. -/
def REPO_NAME : String := "volo-smart-contracts"

/-- `get_cyclic_index` from the source:
`(int(run_number) - 1) % max_index + 1`.  The integer argument is the
already-parsed run number; Lean's `Int.emod` (`%`) agrees with Python's
floor modulo for a positive modulus. -/
def get_cyclic_index (run_number : Int) (max_index : Int) : Int :=
  (run_number - 1) % max_index + 1

/-- Characters stripped by CPython `int()` before parsing (ASCII
whitespace). -/
def isPySpace (c : Char) : Bool :=
  c == ' ' || c == '\t' || c == '\n' || c == '\r' || c == '\x0b' || c == '\x0c'

/-- Numeric value of an ASCII digit. -/
def digitVal (c : Char) : Nat := c.toNat - '0'.toNat

/-- Digits after the first one: CPython base-10 digit strings allow a single
underscore between two digits. -/
def pyDigitsAux (acc : Nat) : List Char → Option Nat
  | [] => some acc
  | '_' :: c :: rest =>
      if c.isDigit then pyDigitsAux (10 * acc + digitVal c) rest else none
  | c :: rest =>
      if c.isDigit then pyDigitsAux (10 * acc + digitVal c) rest else none

/-- A nonempty digit string (with optional internal underscores). -/
def pyDigits : List Char → Option Nat
  | [] => none
  | c :: rest => if c.isDigit then pyDigitsAux (digitVal c) rest else none

/-- Optional sign followed by digits. -/
def pyIntCore : List Char → Option Int
  | '+' :: rest => (pyDigits rest).map (fun n => (n : Int))
  | '-' :: rest => (pyDigits rest).map (fun n => -(n : Int))
  | cs => (pyDigits cs).map (fun n => (n : Int))

/-- Model of CPython `int(s)` in base 10 on ASCII input: strip surrounding
whitespace, parse an optional sign and a nonempty digit string; `none`
models the `ValueError` raised on malformed input. -/
def pyInt (s : String) : Option Int :=
  pyIntCore (((s.data.dropWhile (isPySpace ·)).reverse.dropWhile (isPySpace ·)).reverse)

/-- Left-pad a string with zeros to width `w`. -/
def zfill (w : Nat) (s : String) : String :=
  if s.length < w then String.mk (List.replicate (w - s.length) '0') ++ s else s

/-- Python `f"{n:03d}"`: zero-pad the decimal rendering to width 3, the sign
counted in the width. -/
def pad3 (n : Int) : String :=
  if n < 0 then "-" ++ zfill 2 (toString (-n)) else zfill 3 (toString n)

/-- The base-URL resolution performed at module load (source lines 9 and
17–24), as a function of the `GITHUB_RUN_NUMBER` environment value (the
string defaults to `"0"` when the variable is absent).  `none` models the
`ValueError` that `int()` raises on unparseable input, which aborts the
module initialisation. -/
def computeBaseURL (run_number : String) : Option String :=
  if run_number == "0" then
    some ("https://deepwiki.com/" ++ SOURCE_REPO)
  else
    match pyInt run_number with
    | none => none
    | some n =>
        some ("https://deepwiki.com/grass-dev-pa/" ++ REPO_NAME ++ "-"
          ++ pad3 (get_cyclic_index n MAX_REPO))

/-- Python string quoting used by `str(list_of_str)`: each element is
rendered between single quotes (none of the registry paths contains a
quote or other character needing escaping). -/
def pyQuote (s : String) : String := "\x27" ++ s ++ "\x27"

/-- Comma-separated rendering of the elements of a Python list of strings. -/
def pyStrElems : List String → String
  | [] => ""
  | [x] => pyQuote x
  | x :: y :: ys => pyQuote x ++ ", " ++ pyStrElems (y :: ys)

/-- Python `str` of a list of strings, as rendered inside an f-string. -/
def pyStr (xs : List String) : String := "[" ++ pyStrElems xs ++ "]"

/-- The static scope registry `scope_files`, transcribed verbatim from the
source (the wholesale duplication of the list is preserved). -/
def scope_files : List String := [

  "liquid_staking/sources/stake_pool.move",
  "liquid_staking/sources/manage.move",
  "liquid_staking/sources/fee_config.move",
  "liquid_staking/sources/volo_v1/native_pool.move",
  "liquid_staking/sources/volo_v1/validator_set.move",
  "liquid_staking/sources/volo_v1/ownership.move",
  "liquid_staking/sources/volo_v1/unstake_ticket.move",
  "liquid_staking/sources/volo_v1/math.move",
  "liquid_staking/sources/cert.move",
  "liquid_staking/sources/validator_pool.move",
  "liquid_staking/sources/migration/migrate.move",
  "volo-vault/sources/utils.move",
  "volo-vault/sources/volo_vault.move",
  "volo-vault/sources/manage.move",
  "volo-vault/sources/operation.move",
  "volo-vault/sources/user_entry.move",
  "volo-vault/sources/vault_receipt_info.move",
  "volo-vault/sources/receipt.move",
  "volo-vault/sources/requests/withdraw_request.move",
  "volo-vault/sources/requests/deposit_request.move",
  "volo-vault/sources/adaptors/momentum.adaptor.move",
  "volo-vault/sources/adaptors/cetus_adaptor.move",
  "volo-vault/sources/adaptors/suilend_adaptor.move",
  "volo-vault/sources/adaptors/receipt_adaptor.move",
  "volo-vault/sources/adaptors/navi_adaptor.move",
  "volo-vault/sources/reward_manager.move",
  "volo-vault/sources/oracle.move",
  "volo-vault/health-limiter/sources/adaptors/navi_limiter.move",
  "volo-vault/local_dependencies/switchboard_sui/on_demand/sources/utils/decimal.move",
  "volo-vault/local_dependencies/switchboard_sui/on_demand/sources/utils/hash.move",
  "volo-vault/local_dependencies/switchboard_sui/on_demand/sources/schemas/queue.move",
  "volo-vault/local_dependencies/switchboard_sui/on_demand/sources/schemas/aggregator.move",
  "volo-vault/local_dependencies/switchboard_sui/on_demand/sources/schemas/oracle.move",
  "volo-vault/local_dependencies/switchboard_sui/on_demand/sources/actions/aggregator/aggregator_set_authority_action.move",
  "volo-vault/local_dependencies/switchboard_sui/on_demand/sources/actions/aggregator/aggregator_init_action.move",
  "volo-vault/local_dependencies/switchboard_sui/on_demand/sources/actions/aggregator/aggregator_set_configs_action.move",
  "volo-vault/local_dependencies/switchboard_sui/on_demand/sources/actions/aggregator/aggregator_delete_action.move",
  "volo-vault/local_dependencies/switchboard_sui/on_demand/sources/actions/aggregator/aggregator_submit_result_action.move",
  "volo-vault/local_dependencies/switchboard_sui/on_demand/sources/actions/oracle/oracle_init_action.move",
  "volo-vault/local_dependencies/switchboard_sui/on_demand/sources/actions/oracle/oracle_attest_action.move",
  "volo-vault/local_dependencies/switchboard_sui/on_demand/sources/actions/state/set_guardian_queue_id_action.move",
  "volo-vault/local_dependencies/switchboard_sui/on_demand/sources/actions/state/set_package_id_action.move",
  "volo-vault/local_dependencies/switchboard_sui/on_demand/sources/actions/state/set_oracle_queue_id_action.move",
  "volo-vault/local_dependencies/switchboard_sui/on_demand/sources/actions/queue/queue_set_authority_action.move",
  "volo-vault/local_dependencies/switchboard_sui/on_demand/sources/actions/queue/queue_set_configs_action.move",
  "volo-vault/local_dependencies/switchboard_sui/on_demand/sources/actions/queue/queue_add_fee_coin_action.move",
  "volo-vault/local_dependencies/switchboard_sui/on_demand/sources/actions/queue/oracle_queue_init_action.move",
  "volo-vault/local_dependencies/switchboard_sui/on_demand/sources/actions/queue/queue_remove_fee_coin_action.move",
  "volo-vault/local_dependencies/switchboard_sui/on_demand/sources/actions/queue/queue_override_oracle_action.move",
  "volo-vault/local_dependencies/switchboard_sui/on_demand/sources/actions/queue/guardian_queue_init_action.move",
  "volo-vault/local_dependencies/switchboard_sui/on_demand/sources/on_demand.move",
  "volo-vault/local_dependencies/mmt_v3/sources/global_config.move",
  "volo-vault/local_dependencies/mmt_v3/sources/pool.move",
  "volo-vault/local_dependencies/mmt_v3/sources/tick.move",
  "volo-vault/local_dependencies/mmt_v3/sources/liquidity.move",
  "volo-vault/local_dependencies/mmt_v3/sources/i128.move",
  "volo-vault/local_dependencies/mmt_v3/sources/collect.move",
  "volo-vault/local_dependencies/mmt_v3/sources/utils/utils.move",
  "volo-vault/local_dependencies/mmt_v3/sources/utils/liquidity_math.move",
  "volo-vault/local_dependencies/mmt_v3/sources/utils/sqrt_price_math.move",
  "volo-vault/local_dependencies/mmt_v3/sources/utils/tick_math.move",
  "volo-vault/local_dependencies/mmt_v3/sources/utils/constants.move",
  "volo-vault/local_dependencies/mmt_v3/sources/utils/swap_math.move",
  "volo-vault/local_dependencies/mmt_v3/sources/utils/comparator.move",
  "volo-vault/local_dependencies/mmt_v3/sources/utils/bit_math.move",
  "volo-vault/local_dependencies/mmt_v3/sources/utils/oracle.move",
  "volo-vault/local_dependencies/mmt_v3/sources/version.move",
  "volo-vault/local_dependencies/mmt_v3/sources/i64.move",
  "volo-vault/local_dependencies/mmt_v3/sources/i32.move",
  "volo-vault/local_dependencies/mmt_v3/sources/position.move",
  "volo-vault/local_dependencies/mmt_v3/sources/create_pool.move",
  "volo-vault/local_dependencies/mmt_v3/sources/trade.move",
  "volo-vault/local_dependencies/protocol/lending_core/sources/account.move",
  "volo-vault/local_dependencies/protocol/lending_core/sources/lending.move",
  "volo-vault/local_dependencies/protocol/lending_core/sources/logic.move",
  "volo-vault/local_dependencies/protocol/lending_core/sources/manage.move",
  "volo-vault/local_dependencies/protocol/lending_core/sources/validation.move",
  "volo-vault/local_dependencies/protocol/lending_core/sources/pool.move",
  "volo-vault/local_dependencies/protocol/lending_core/sources/incentive.move",
  "volo-vault/local_dependencies/protocol/lending_core/sources/storage.move",
  "volo-vault/local_dependencies/protocol/lending_core/sources/error.move",
  "volo-vault/local_dependencies/protocol/lending_core/sources/version.move",
  "volo-vault/local_dependencies/protocol/lending_core/sources/constants.move",
  "volo-vault/local_dependencies/protocol/lending_core/sources/dynamic_calculator.move",
  "volo-vault/local_dependencies/protocol/lending_core/sources/incentive_v3.move",
  "volo-vault/local_dependencies/protocol/lending_core/sources/calculator.move",
  "volo-vault/local_dependencies/protocol/lending_core/sources/incentive_v2.move",
  "volo-vault/local_dependencies/protocol/lending_core/sources/flash_loan.move",
  "volo-vault/local_dependencies/protocol/lending_ui/sources/incentive.move",
  "volo-vault/local_dependencies/protocol/lending_ui/sources/calculate.move",
  "volo-vault/local_dependencies/protocol/lending_ui/sources/getter.move",
  "volo-vault/local_dependencies/protocol/lending_ui/sources/incentive_v3.move",
  "volo-vault/local_dependencies/protocol/oracle/sources/oracle_pro.move",
  "volo-vault/local_dependencies/protocol/oracle/sources/oracle_manage.move",
  "volo-vault/local_dependencies/protocol/oracle/sources/oracle_error.move",
  "volo-vault/local_dependencies/protocol/oracle/sources/adaptor_pyth.move",
  "volo-vault/local_dependencies/protocol/oracle/sources/oracle_provider.move",
  "volo-vault/local_dependencies/protocol/oracle/sources/oracle_dynamic_getter.move",
  "volo-vault/local_dependencies/protocol/oracle/sources/strategy.move",
  "volo-vault/local_dependencies/protocol/oracle/sources/oracle_utils.move",
  "volo-vault/local_dependencies/protocol/oracle/sources/config.move",
  "volo-vault/local_dependencies/protocol/oracle/sources/oracle_version.move",
  "volo-vault/local_dependencies/protocol/oracle/sources/adaptor_supra.move",
  "volo-vault/local_dependencies/protocol/oracle/sources/oracle.move",
  "volo-vault/local_dependencies/protocol/oracle/sources/oracle_constants.move",
  "volo-vault/local_dependencies/protocol/utils/sources/utils.move",
  "volo-vault/local_dependencies/protocol/math/sources/ray_math.move",
  "volo-vault/local_dependencies/protocol/math/sources/safe_math.move",
  "volo-vault/local_dependencies/suilend_d/sprungsui/sources/sprungsui.move",
  "volo-vault/local_dependencies/suilend_d/suilend/sources/staker.move",
  "volo-vault/local_dependencies/suilend_d/suilend/sources/liquidity_mining.move",
  "volo-vault/local_dependencies/suilend_d/suilend/sources/decimal.move",
  "volo-vault/local_dependencies/suilend_d/suilend/sources/reserve_config.move",
  "volo-vault/local_dependencies/suilend_d/suilend/sources/oracles.move",
  "volo-vault/local_dependencies/suilend_d/suilend/sources/rate_limiter.move",
  "volo-vault/local_dependencies/suilend_d/suilend/sources/obligation.move",
  "volo-vault/local_dependencies/suilend_d/suilend/sources/cell.move",
  "volo-vault/local_dependencies/suilend_d/suilend/sources/reserve.move",
  "volo-vault/local_dependencies/suilend_d/suilend/sources/lending_market_registry.move",
  "volo-vault/local_dependencies/suilend_d/suilend/sources/lending_market.move",
  "volo-vault/local_dependencies/suilend_d/suilend/sources/suilend.move",
  "liquid_staking/sources/stake_pool.move",
  "liquid_staking/sources/manage.move",
  "liquid_staking/sources/fee_config.move",
  "liquid_staking/sources/volo_v1/native_pool.move",
  "liquid_staking/sources/volo_v1/validator_set.move",
  "liquid_staking/sources/volo_v1/ownership.move",
  "liquid_staking/sources/volo_v1/unstake_ticket.move",
  "liquid_staking/sources/volo_v1/math.move",
  "liquid_staking/sources/cert.move",
  "liquid_staking/sources/validator_pool.move",
  "liquid_staking/sources/migration/migrate.move",
  "volo-vault/sources/utils.move",
  "volo-vault/sources/volo_vault.move",
  "volo-vault/sources/manage.move",
  "volo-vault/sources/operation.move",
  "volo-vault/sources/user_entry.move",
  "volo-vault/sources/vault_receipt_info.move",
  "volo-vault/sources/receipt.move",
  "volo-vault/sources/requests/withdraw_request.move",
  "volo-vault/sources/requests/deposit_request.move",
  "volo-vault/sources/adaptors/momentum.adaptor.move",
  "volo-vault/sources/adaptors/cetus_adaptor.move",
  "volo-vault/sources/adaptors/suilend_adaptor.move",
  "volo-vault/sources/adaptors/receipt_adaptor.move",
  "volo-vault/sources/adaptors/navi_adaptor.move",
  "volo-vault/sources/reward_manager.move",
  "volo-vault/sources/oracle.move",
  "volo-vault/health-limiter/sources/adaptors/navi_limiter.move",
  "volo-vault/local_dependencies/switchboard_sui/on_demand/sources/utils/decimal.move",
  "volo-vault/local_dependencies/switchboard_sui/on_demand/sources/utils/hash.move",
  "volo-vault/local_dependencies/switchboard_sui/on_demand/sources/schemas/queue.move",
  "volo-vault/local_dependencies/switchboard_sui/on_demand/sources/schemas/aggregator.move",
  "volo-vault/local_dependencies/switchboard_sui/on_demand/sources/schemas/oracle.move",
  "volo-vault/local_dependencies/switchboard_sui/on_demand/sources/actions/aggregator/aggregator_set_authority_action.move",
  "volo-vault/local_dependencies/switchboard_sui/on_demand/sources/actions/aggregator/aggregator_init_action.move",
  "volo-vault/local_dependencies/switchboard_sui/on_demand/sources/actions/aggregator/aggregator_set_configs_action.move",
  "volo-vault/local_dependencies/switchboard_sui/on_demand/sources/actions/aggregator/aggregator_delete_action.move",
  "volo-vault/local_dependencies/switchboard_sui/on_demand/sources/actions/aggregator/aggregator_submit_result_action.move",
  "volo-vault/local_dependencies/switchboard_sui/on_demand/sources/actions/oracle/oracle_init_action.move",
  "volo-vault/local_dependencies/switchboard_sui/on_demand/sources/actions/oracle/oracle_attest_action.move",
  "volo-vault/local_dependencies/switchboard_sui/on_demand/sources/actions/state/set_guardian_queue_id_action.move",
  "volo-vault/local_dependencies/switchboard_sui/on_demand/sources/actions/state/set_package_id_action.move",
  "volo-vault/local_dependencies/switchboard_sui/on_demand/sources/actions/state/set_oracle_queue_id_action.move",
  "volo-vault/local_dependencies/switchboard_sui/on_demand/sources/actions/queue/queue_set_authority_action.move",
  "volo-vault/local_dependencies/switchboard_sui/on_demand/sources/actions/queue/queue_set_configs_action.move",
  "volo-vault/local_dependencies/switchboard_sui/on_demand/sources/actions/queue/queue_add_fee_coin_action.move",
  "volo-vault/local_dependencies/switchboard_sui/on_demand/sources/actions/queue/oracle_queue_init_action.move",
  "volo-vault/local_dependencies/switchboard_sui/on_demand/sources/actions/queue/queue_remove_fee_coin_action.move",
  "volo-vault/local_dependencies/switchboard_sui/on_demand/sources/actions/queue/queue_override_oracle_action.move",
  "volo-vault/local_dependencies/switchboard_sui/on_demand/sources/actions/queue/guardian_queue_init_action.move",
  "volo-vault/local_dependencies/switchboard_sui/on_demand/sources/on_demand.move",
  "volo-vault/local_dependencies/mmt_v3/sources/global_config.move",
  "volo-vault/local_dependencies/mmt_v3/sources/pool.move",
  "volo-vault/local_dependencies/mmt_v3/sources/tick.move",
  "volo-vault/local_dependencies/mmt_v3/sources/liquidity.move",
  "volo-vault/local_dependencies/mmt_v3/sources/i128.move",
  "volo-vault/local_dependencies/mmt_v3/sources/collect.move",
  "volo-vault/local_dependencies/mmt_v3/sources/utils/utils.move",
  "volo-vault/local_dependencies/mmt_v3/sources/utils/liquidity_math.move",
  "volo-vault/local_dependencies/mmt_v3/sources/utils/sqrt_price_math.move",
  "volo-vault/local_dependencies/mmt_v3/sources/utils/tick_math.move",
  "volo-vault/local_dependencies/mmt_v3/sources/utils/constants.move",
  "volo-vault/local_dependencies/mmt_v3/sources/utils/swap_math.move",
  "volo-vault/local_dependencies/mmt_v3/sources/utils/comparator.move",
  "volo-vault/local_dependencies/mmt_v3/sources/utils/bit_math.move",
  "volo-vault/local_dependencies/mmt_v3/sources/utils/oracle.move",
  "volo-vault/local_dependencies/mmt_v3/sources/version.move",
  "volo-vault/local_dependencies/mmt_v3/sources/i64.move",
  "volo-vault/local_dependencies/mmt_v3/sources/i32.move",
  "volo-vault/local_dependencies/mmt_v3/sources/position.move",
  "volo-vault/local_dependencies/mmt_v3/sources/create_pool.move",
  "volo-vault/local_dependencies/mmt_v3/sources/trade.move",
  "volo-vault/local_dependencies/protocol/lending_core/sources/account.move",
  "volo-vault/local_dependencies/protocol/lending_core/sources/lending.move",
  "volo-vault/local_dependencies/protocol/lending_core/sources/logic.move",
  "volo-vault/local_dependencies/protocol/lending_core/sources/manage.move",
  "volo-vault/local_dependencies/protocol/lending_core/sources/validation.move",
  "volo-vault/local_dependencies/protocol/lending_core/sources/pool.move",
  "volo-vault/local_dependencies/protocol/lending_core/sources/incentive.move",
  "volo-vault/local_dependencies/protocol/lending_core/sources/storage.move",
  "volo-vault/local_dependencies/protocol/lending_core/sources/error.move",
  "volo-vault/local_dependencies/protocol/lending_core/sources/version.move",
  "volo-vault/local_dependencies/protocol/lending_core/sources/constants.move",
  "volo-vault/local_dependencies/protocol/lending_core/sources/dynamic_calculator.move",
  "volo-vault/local_dependencies/protocol/lending_core/sources/incentive_v3.move",
  "volo-vault/local_dependencies/protocol/lending_core/sources/calculator.move",
  "volo-vault/local_dependencies/protocol/lending_core/sources/incentive_v2.move",
  "volo-vault/local_dependencies/protocol/lending_core/sources/flash_loan.move",
  "volo-vault/local_dependencies/protocol/lending_ui/sources/incentive.move",
  "volo-vault/local_dependencies/protocol/lending_ui/sources/calculate.move",
  "volo-vault/local_dependencies/protocol/lending_ui/sources/getter.move",
  "volo-vault/local_dependencies/protocol/lending_ui/sources/incentive_v3.move",
  "volo-vault/local_dependencies/protocol/oracle/sources/oracle_pro.move",
  "volo-vault/local_dependencies/protocol/oracle/sources/oracle_manage.move",
  "volo-vault/local_dependencies/protocol/oracle/sources/oracle_error.move",
  "volo-vault/local_dependencies/protocol/oracle/sources/adaptor_pyth.move",
  "volo-vault/local_dependencies/protocol/oracle/sources/oracle_provider.move",
  "volo-vault/local_dependencies/protocol/oracle/sources/oracle_dynamic_getter.move",
  "volo-vault/local_dependencies/protocol/oracle/sources/strategy.move",
  "volo-vault/local_dependencies/protocol/oracle/sources/oracle_utils.move",
  "volo-vault/local_dependencies/protocol/oracle/sources/config.move",
  "volo-vault/local_dependencies/protocol/oracle/sources/oracle_version.move",
  "volo-vault/local_dependencies/protocol/oracle/sources/adaptor_supra.move",
  "volo-vault/local_dependencies/protocol/oracle/sources/oracle.move",
  "volo-vault/local_dependencies/protocol/oracle/sources/oracle_constants.move",
  "volo-vault/local_dependencies/protocol/utils/sources/utils.move",
  "volo-vault/local_dependencies/protocol/math/sources/ray_math.move",
  "volo-vault/local_dependencies/protocol/math/sources/safe_math.move",
  "volo-vault/local_dependencies/suilend_d/sprungsui/sources/sprungsui.move",
  "volo-vault/local_dependencies/suilend_d/suilend/sources/staker.move",
  "volo-vault/local_dependencies/suilend_d/suilend/sources/liquidity_mining.move",
  "volo-vault/local_dependencies/suilend_d/suilend/sources/decimal.move",
  "volo-vault/local_dependencies/suilend_d/suilend/sources/reserve_config.move",
  "volo-vault/local_dependencies/suilend_d/suilend/sources/oracles.move",
  "volo-vault/local_dependencies/suilend_d/suilend/sources/rate_limiter.move",
  "volo-vault/local_dependencies/suilend_d/suilend/sources/obligation.move",
  "volo-vault/local_dependencies/suilend_d/suilend/sources/cell.move",
  "volo-vault/local_dependencies/suilend_d/suilend/sources/reserve.move",
  "volo-vault/local_dependencies/suilend_d/suilend/sources/lending_market_registry.move",
  "volo-vault/local_dependencies/suilend_d/suilend/sources/lending_market.move",
  "volo-vault/local_dependencies/suilend_d/suilend/sources/suilend.move"

]

/-- Literal chunk 1 of the `question_generator` f-string (written as a
concatenation of short pieces). -/
def qgLit1 : String :=
  "\n# **Generate 150+ Targeted Security Audit Questions for Volo Protocol (Liquid Staking LST + Volo Vault on Sui)**\n\n## **Context**\n\nThe target project is **Volo** on **Sui Move**, composed of:\n- **Liquid Staking**: stake/unstake SUI for LST, fee configuration (bps caps), epoch rollover rewards, boosted balances, validator pool management, validator weights, pause flag, operator/admin caps, delegati" ++
  "on to specific validators, migration path from volo_v1, request/extra_fields bag storage.\n- **Volo Vault**: multi-asset vault with request buffers for deposits/withdrawals, share accounting, fee caps, locking windows, loss tolerance per epoch, operation status gating (normal/during operation/disabled), operator freeze map, reward manager + vault receipts alignment, oracle price config, adaptors to" ++
  " external protocols (Navi lending_core, Suilend, Cetus CLMM, Momentum), DeFi asset borrow/return tracking, value update checks, health-limiter hooks.\n- **Health Limiter**: adaptor checking Navi health factor before operations using oracle prices, emitting verification events.\n- **Local Dependencies**: Switchboard on-demand oracle actions, MMT v3 AMM math, protocol lending_core/ui/oracle/math/utils" ++
  ", Suilend modules, ensuring cross-module integrity.\n\n## **Scope**\n\n**CRITICAL TARGET FILE**: Focus question generation EXCLUSIVELY on `"

/-- Literal chunk 2 of the `question_generator` f-string (written as a
concatenation of short pieces). -/
def qgLit2 : String :=
  "`\n\nNote: Questions must be generated from **`"

/-- Literal chunk 3 of the `question_generator` f-string (written as a
concatenation of short pieces). -/
def qgLit3 : String :=
  "`** only. If you cannot generate 150 questions from this single file, generate as many high-quality questions as the file allows.  \nIf a file is more than a thousand lines, generate up to 300+ questions.  \nAlways generate as many strong questions as possible and do not return empty results.\n\n## **Core Volo Components** (for reference only)\n\n```python\ncore_components = [\n    \"liquid_staking/sources" ++
  "/stake_pool.move\",\n    \"liquid_staking/sources/manage.move\",\n    \"liquid_staking/sources/fee_config.move\",\n    \"liquid_staking/sources/validator_pool.move\",\n    \"liquid_staking/sources/volo_v1/*\",\n    \"volo-vault/sources/*.move\",\n    \"volo-vault/sources/adaptors/*.move\",\n    \"volo-vault/sources/requests/*.move\",\n    \"volo-vault/health-limiter/sources/adaptors/navi_limiter.move\",\n    \"volo-vault/lo" ++
  "cal_dependencies/**/sources/*.move\",\n]\n```\n\n## **Critical Invariant Areas**\n\n- Auth/roles: admin vs operator caps, paused flag, operator freeze list, vault status gating (normal vs during operation vs disabled), migration restrictions, public share/transfer paths.\n- Share/accounting: deposit/withdraw request buffers, share mint/burn math, receipt/vault ID matching, expected_shares/expected_amount " ++
  "slippage checks, fee caps vs defaults, boosted balances and accrued reward fees.\n- Value & oracles: Switchboard on-demand aggregator correctness, price decimals (1e9/1e18) conversions, staleness tracking (`assets_value_updated`), tolerance reset per epoch, loss_tolerance enforcement.\n- External adaptors: borrow/return of DeFi assets (Navi account caps, Cetus positions, Suilend obligations, Momentu" ++
  "m positions, receipts) must be balanced; type/ID parsing via `vault_utils::parse_key`; no missing asset return; health factor checks via limiter.\n- Operations lifecycle: pre/post op status toggling, total_usd_value snapshots, asset IDs/types alignment, op_value_update gating, locking windows for withdraw/cancel, request cancel timing.\n- LST specifics: min stake amount, ratio math, supply zero chec" ++
  "ks, delegation path, validator weight updates, fee update bounds, pause enforcement.\n\n## **In-Scope Vulnerability Categories**\n\n- Authorization or pause/status bypass allowing restricted actions (mint, stake/unstake, op start/end, config update).\n- Accounting/fee/ratio errors leading to share inflation/deflation, fee under/over-collection, loss tolerance bypass, or boosted reward mis-accounting.\n-" ++
  " Oracle/value update issues causing incorrect USD valuations, stale price acceptance, overflow/underflow in decimal conversions.\n- Asset custody/return failures in operations or adaptors (assets not returned, wrong type IDs, mismatched vault IDs).\n- Locking/withdrawal window bypass, request buffer corruption, receipt mismatch enabling theft or denial of funds.\n- External protocol misuse (health fa" ++
  "ctor not enforced, missing approvals) enabling unsafe leverage or DoS.\n\n## **Question Format Template**\n\nEach question MUST follow this Python list format:\n\n```python\nquestions = [\n    \"[File: "

/-- Literal chunk 4 of the `question_generator` f-string (written as a
concatenation of short pieces). -/
def qgLit4 : String :=
  "] [Function: functionName()] [Vulnerability Type] Specific exploit scenario with preconditions, violated invariant, attacker action, and concrete impact? (High)\",\n]\n```\n\n## **Output Requirements**\n\nGenerate questions focusing EXCLUSIVELY on `"

/-- Literal chunk 5 of the `question_generator` f-string (written as a
concatenation of short pieces). -/
def qgLit5 : String :=
  "` that:\n\n- Reference real functions/methods/logic blocks in `"

/-- Literal chunk 6 of the `question_generator` f-string (written as a
concatenation of short pieces). -/
def qgLit6 : String :=
  "`\n- Include concrete exploit paths, not generic checks\n- Tie each question to math logic, business logic, scenario validity, or invariant break\n- Prioritize questions likely to result in **valid vulnerabilities**\n- Avoid low-signal or non-exploitable questions\n- Include severity `(Critical/High/Medium/Low)` in each question\n- Use exact Python list format\n\n## **Target Question Count**\n\n- Small file" ++
  "s: 80-150 questions when possible\n- Medium files: 150+ questions\n- Very large files (>1000 lines): 300+ questions\n- If code size limits quantity, output as many quality questions as possible\n\nBegin generating questions for `"

/-- Literal chunk 7 of the `question_generator` f-string (written as a
concatenation of short pieces). -/
def qgLit7 : String :=
  "` now.\n"

/-- Prompt builder `question_generator`: the f-string template, as the
concatenation of its literal chunks and `target_file` interpolations. -/
def question_generator (target_file : String) : String :=
  qgLit1 ++
  target_file ++
  qgLit2 ++
  target_file ++
  qgLit3 ++
  target_file ++
  qgLit4 ++
  target_file ++
  qgLit5 ++
  target_file ++
  qgLit6 ++
  target_file ++
  qgLit7

/-- Literal chunk 1 of the `validation_format` f-string (written as a
concatenation of short pieces). -/
def vfLit1 : String :=
  "\nYou are an **Elite Volo Protocol Security Judge** with deep expertise in Sui Move liquid staking, vault accounting, oracle/value updates, external adaptor integrations (Navi/Cetus/Suilend/Momentum), and health-factor enforcement.\n\nYour ONLY task is **ruthless technical validation** of the claim below.\n\nNote: Trusted roles include Volo admin/operator caps, package publishing authorities, and hones" ++
  "t oracle authorities for Switchboard; assume these roles are honest unless the claim is about mis-scoped privileges.\n\n**SECURITY CLAIM TO VALIDATE:**\n"

/-- Literal chunk 2 of the `validation_format` f-string (written as a
concatenation of short pieces). -/
def vfLit2 : String :=
  "\n\n" ++
  "====================" ++
  "====================" ++
  "====================" ++
  "====================" ++
  "\n## **VOLO VALIDATION FRAMEWORK**\n\n### **PHASE 1: IMMEDIATE DISQUALIFICATION CHECKS**\nReject immediately (`#NoVulnerability`) if **ANY** apply.\n\nNote before a vulnerability can be considered valid it must have BOTH:\n1) valid impact to protocol/users/funds/state integrity\n2) valid likelihood / feasible trigger path\n\nI" ++
  "f it cannot be triggered in a realistic way, it is invalid (except pure logic invariant break that is directly reachable).\n\nReturn MUST be either:\n- the original report (if valid)\n- `#NoVulnerability` (if invalid)\n\nAny vuln with no valid impact to the protocol is invalid.\nAny scenario that needs attacker to deploy own contract and only self-harm is invalid.\nDark-forest user mistakes are not protoc" ++
  "ol vulnerabilities.\n\n#### **A. Scope Violations**\n- ❌ Affects files not in production source scope\n- ❌ Targets tests, mocks, examples, scripts, docs, comments, style-only issues\n- ❌ Claims on off-chain tooling instead of on-chain protocol logic\n- ❌ Issues that only exist in test-only behavior\n\n**In-Scope Volo smart contract files**\n```python\nscope_files = "

/-- Literal chunk 3 of the `validation_format` f-string (written as a
concatenation of short pieces). -/
def vfLit3 : String :=
  "\n```\n\n#### **B. Threat Model Violations**\n- ❌ Requires compromised protocol admin/operator/developer/private keys\n- ❌ Assumes malicious Sui validators / consensus break / chain reorg control\n- ❌ Depends on breaking cryptographic primitives or Sui runtime internals\n- ❌ Relies on phishing, social engineering, user wallet compromise\n- ❌ Pure network-layer attacks (DDoS/BGP/DNS/etc.) outside protocol " ++
  "logic\n\n#### **C. Known/Non-Security Exclusions**\n- ❌ Already known/fixed issues without current exploit path\n- ❌ Gas/performance/style improvements without concrete security impact\n- ❌ Logging/events/documentation-only suggestions\n- ❌ Theoretical concerns without executable path and state impact\n- ❌ Precision differences with negligible or non-exploitable effect\n\n#### **D. Invalid Exploit Scenario" ++
  "s**\n- ❌ Impossible inputs or invalid transaction semantics\n- ❌ Needs calling non-reachable internal-only paths\n- ❌ Requires unrealistic privileges not available to attacker\n- ❌ Requires self-loss with no protocol invariant break\n- ❌ Cannot produce measurable impact on balances, funds destination, ownership, or authorization\n\n### **PHASE 2: VOLO DEEP CODE VALIDATION**\n\n#### **Step 1: Trace Complete" ++
  " Execution Path**\nFor each claim, reconstruct:\n1. Entry point (public/entry Move function)\n2. Full call chain\n3. Pre-state (vault status, pause flag, fee bounds, locking windows, loss tolerance/epoch, oracle update timestamps, receipt/vault match, health factor thresholds, adaptor assets present)\n4. State transitions at each step\n5. Existing guards/checks (cap/auth checks, paused/status checks, fe" ++
  "e/amount bounds, share math, price decimals, tolerance enforcement, asset return checks, locking windows, health limiter)\n6. Final post-state and violated invariant\n\nIf any path step is missing or non-reachable, reject as `#NoVulnerability`.\n\n#### **Step 2: Evidence Requirements**\nA valid report must provide:\n- Exact file path(s) and relevant line references\n- Concrete vulnerable logic and bypass " ++
  "explanation\n- Triggerable transaction flow with realistic attacker actions\n- Why protections do not stop it\n- Quantified impact (fund loss, share dilution, receipt/vault desync, unauthorized admin/operator action)\n\nRed flags -> invalid:\n- “might be vulnerable” without exploit sequence\n- no clear invariant broken\n- no impact beyond revert/no-op\n- assumptions that contradict Sui Move semantics\n\n####" ++
  " **Step 3: VOLO-Specific Validity Checks**\nValidate claims against these invariant domains:\n\n1. **Config & Auth**\n- Admin/operator cap checks; pause flag; vault status (normal/during operation/disabled); operator freeze map; migration rules.\n\n2. **Staking / Vault Requests**\n- Stake/unstake min amounts; share mint/burn math; boosted balances; request buffers; locking windows; cancel timeouts; recei" ++
  "pt/vault ID alignment; expected_shares/expected_amount honored.\n\n3. **Operations & Asset Custody**\n- pre_vault_check/post operation status; all borrowed DeFi assets returned; asset ID/type mapping; total_usd_value/tolerance checks; op_value_update gating; loss_tolerance enforcement.\n\n4. **Oracle & Valuation**\n- Switchboard on-demand price integrity; decimal conversions (1e9/1e18); staleness via `a" ++
  "ssets_value_updated`; USD value aggregation; overflow/underflow boundaries.\n\n5. **External Integrations**\n- Health limiter enforced before risky ops; adaptors correctly handle account caps/positions/obligations; no unauthorized transfer or leakage.\n\n### **PHASE 3: IMPACT + LIKELIHOOD JUDGMENT**\n\nA vulnerability is valid ONLY if BOTH are true:\n\n1. **Impact is valid**\n- Direct or indirect fund loss/" ++
  "misdirection (vault principal, LST fees, oracle collateral)\n- Unauthorized ownership/receipt/vault record corruption or asset theft\n- Pricing/accounting corruption (share inflation/deflation, fee bypass, loss tolerance bypass)\n- Unauthorized config/auth/status change (pause/disable, operator freeze, caps)\n- High-confidence protocol DoS via valid calls (vault stuck during operation, request buffer " ++
  "lock, oracle dependence)\n\n2. **Likelihood is valid**\n- Real attacker can execute via public interfaces\n- No privileged assumptions beyond noted caps/roles\n- Reasonable preconditions\n- Reproducible path under normal chain rules\n\nIf either impact or likelihood fails -> `#NoVulnerability`.\n\n### **DECISION OUTPUT (STRICT)**\n           \n---            \n            \n**AUDIT REPORT FORMAT** (if vulnerabi" ++
  "lity found):            \n            \nAudit Report            \n            \n## Title \nThe Title Of the Report \n\n## Summary\nA short summary of the issue, keep it brief.\n\n## Finding Description\nA more detailed explanation of the issue. Poorly written or incorrect findings may result in rejection and a decrease of reputation score.\n\nDescribe which security guarantees it breaks and how it breaks them." ++
  " If this bug does not automatically happen, showcase how a malicious input would propagate through the system to the part of the code where the issue occurs.\n\n## Impact Explanation\nElaborate on why you\x27ve chosen a particular impact assessment.\n\n## Likelihood Explanation\nExplain how likely this is to occur and why.\n\n\n## Recommendation\nHow can the issue be fixed or solved. Preferably, you can also a" ++
  "dd a snippet of the fixed code here.\n\n\n## Proof of Concept\nNote very important the poc must have a valid test that runs just one function that proove the vuln \n  **Remember**: False positives harm credibility more than missed findings. Assume claims are invalid until overwhelming evidence proves otherwise.    \n    \n**Now perform STRICT validation of the claim above.**    \n    \n**Output ONLY:**    " ++
  "\n- A full audit report (if genuinely valid after passing **all** checks above) following the specified format    \n- `#NoVulnerability found for this question.` (if **any** check fails) very important    \n- Note if u cant validate the claim or dont understand just send #NoVulnerability    \n- Only show full report when u know this is actually and truly a  valid vulnerability "

/-- Prompt builder `validation_format`: literal chunks with the `report`
interpolation and the rendered `scope_files` registry (`pyStr scope_files`
models the Python `str(list)` rendering inside the f-string). -/
def validation_format (report : String) : String :=
  vfLit1 ++
  report ++
  vfLit2 ++
  pyStr scope_files ++
  vfLit3

/-- Literal chunk 1 of the `audit_format` f-string (written as a
concatenation of short pieces). -/
def afLit1 : String :=
  "# VOLO PROTOCOL SECURITY AUDIT PROMPT\n\n## Security Question to Investigate:\n"

/-- Literal chunk 2 of the `audit_format` f-string (written as a
concatenation of short pieces). -/
def afLit2 : String :=
  "\n\n## Codebase Context\n\n### Core Components\nYou are auditing **Volo**, a Sui Move suite including liquid staking (LST) and a multi-asset vault with external protocol adaptors:\n\n**Liquid Staking (`liquid_staking/sources/*`)**\n- Stake/unstake SUI for LST, fee configuration with bps caps, boosted balances, epoch rollover rewards, validator pool weights, pause flag, admin/operator caps, delegation, mig" ++
  "ration from volo_v1.\n\n**Volo Vault (`volo-vault/sources/*`)**\n- Vault object with share accounting, request buffers for deposits/withdrawals, fee caps, locking windows, loss tolerance per epoch, operation status gating, operator freeze map, reward manager + receipt alignment, oracle config, USD valuation tables, operation start/end.\n\n**Adaptors & Health Limiter**\n- Integrations for Cetus CLMM, Nav" ++
  "i lending_core, Suilend, Momentum positions, receipt adaptor; health limiter enforcing Navi health factor; asset borrow/return via parse_key IDs.\n\n**Local Dependencies**\n- Switchboard on-demand oracle actions; MMT v3 math/AMM; protocol lending_core/ui/oracle/math/utils; suilend_d modules.\n\n## CRITICAL INVARIANTS (Must Hold at All Times)\n\n1. **Authorization & Enablement**\n- Admin/operator caps enfo" ++
  "rced; pause and vault status gates (normal/during operation/disabled); operator freeze respected; migration/publish integrity.\n\n2. **Staking & Vault Requests**\n- Min stake amounts, ratio math, fee caps; request buffers; locking windows; cancel timeouts; receipt/vault ID alignment; expected_shares/expected_amount checks.\n\n3. **Pricing & Funds**\n- Fee caps enforced; share mint/burn consistency; loss" ++
  "_tolerance per epoch; total_usd_value correctness.\n\n4. **Asset Custody & Operations**\n- All borrowed DeFi assets returned; asset IDs/types match; operation start/end status toggles; op_value_update gating; tolerance reset.\n\n5. **Oracle & Valuation**\n- Switchboard price handling, decimal conversions (1e9/1e18), staleness checks (`assets_value_updated`), overflow/underflow bounds.\n\n6. **External Int" ++
  "egrations**\n- Health-factor enforcement for Navi; adaptors for Cetus/Suilend/Momentum handle assets safely; no leakage of account caps/positions.\n\n## ATTACK SURFACES\n\n### 1. Staking & Requests\n- `stake_entry`, `delegate_stake_entry`, `unstake` flows, epoch rollover, fee updates, pause toggles, validator weight updates.\n\n### 2. Migration & Upgrades\n- Migration from volo_v1, publish upgrades, admin/" ++
  "operator cap distribution.\n\n### 3. Receipt & Vault Integrity\n- Receipt issuance/matching, vault_id/receipt_id alignment, request buffers, reward manager interactions.\n\n### 4. Config & Pricing\n- Fee caps, tolerance, locking windows, status toggles, oracle config/value updates.\n\n### 5. Operations & Adaptors\n- Operation start/end with adaptors (Cetus/Navi/Suilend/Momentum/Receipt), asset borrow/retur" ++
  "n, health limiter checks.\n\n## VULNERABILITY VALIDATION REQUIREMENTS\n\nA finding is ONLY valid if it passes ALL checks:\n\n### Impact Assessment (Must be Concrete)\n- [ ] **Direct Fund Impact**: vault/LST fund theft, fee under/over-collection, misrouting of balances or rewards\n- [ ] **Custody/Receipt Integrity**: unauthorized receipt/vault record corruption, wrong recipient, missing asset return\n- [ ] " ++
  "**Security Integrity Impact**: authorization/pause/status/health-limiter bypass, loss_tolerance or value-update bypass\n- [ ] **Operational Impact**: meaningful DoS via valid user actions (vault stuck in operation, requests locked, oracle dependence)\n\nImpact must be real and measurable, not theoretical.\n\n### Likelihood Assessment (Must be Practical)\n- [ ] **Reachable Entry Point**: exploit starts f" ++
  "rom real public/entry callable flow\n- [ ] **Feasible Preconditions**: attacker capabilities realistic for untrusted users\n- [ ] **Execution Practicality**: steps executable under Move semantics and protocol checks\n- [ ] **Economic Rationality**: attack cost and constraints do not make exploit non-viable\n\nLikelihood must be realistic.\n\n### Validation Checklist\nBefore reporting a vulnerability, veri" ++
  "fy:\n\n1. [ ] Exact file/function/line references\n2. [ ] Root cause clearly identified\n3. [ ] End-to-end exploitation path\n4. [ ] Existing checks shown insufficient\n5. [ ] Realistic attack parameters and sequence\n6. [ ] Concrete impact quantification\n7. [ ] No reliance on trusted role compromise\n8. [ ] No contradiction with Sui Move execution model\n\n## AUDIT REPORT FORMAT\n\nIf a valid vulnerability i" ++
  "s found (passes all checks), output this EXACT structure:\n\n### Title\n[Concise vulnerability title]\n\n### Summary\n[2-3 sentence summary of issue and consequence]\n\n### Finding Description\n[Technical details including:\n- exact code location(s)\n- root cause\n- why protections fail\n- relevant execution path]\n\n### Impact Explanation\n[Concrete impact:\n- what harm occurs\n- quantified value/protocol damage\n-" ++
  " who is affected\n- severity justification]\n\n### Likelihood Explanation\n[Realistic exploitability:\n- attacker capabilities\n- attack complexity\n- feasibility conditions\n- detection/operational constraints\n- probability reasoning]\n\n### Recommendation\n[Actionable fix:\n- exact code-level mitigation\n- invariant checks to add\n- test cases to prevent regression]\n\n### Proof of Concept\n[Reproducible exploit" ++
  " sequence:\n- required initial state\n- transaction steps\n- expected vs actual result\n- clear success condition]\n\n## STRICT OUTPUT REQUIREMENT\n\nAfter investigation:\n\nIF a vulnerability passes ALL validation gates with clear evidence:\n-> Output the complete audit report in the format above\n\nIF no valid vulnerability exists:\n-> Output exactly: \"#NoVulnerability found for this question.\"\n\nDo not output" ++
  " anything else.\n\n## Investigation Guidelines\n\n1. Start from entry functions reachable by untrusted users\n2. Trace full state transitions and all side effects\n3. Check math/rounding/decimal boundaries and extreme values\n4. Check cross-module flows (stake_pool/manage/fee_config <-> validator_pool/volo_v1 <-> vault/request buffers <-> adaptors/oracle/health-limiter)\n5. Validate enablement/auth/fee/lo" ++
  "cking/value-update checks end-to-end\n6. Reject speculative findings lacking concrete exploit path\n\nRemember: only report vulnerabilities with both valid impact and valid likelihood.\n\nBegin investigation of: "

/-- Literal chunk 3 of the `audit_format` f-string (written as a
concatenation of short pieces). -/
def afLit3 : String :=
  "\n"

/-- Prompt builder `audit_format`: literal chunks with `security_question`
interpolated (twice). -/
def audit_format (security_question : String) : String :=
  afLit1 ++
  security_question ++
  afLit2 ++
  security_question ++
  afLit3

/-- Literal chunk 1 of the `scan_format` f-string (written as a
concatenation of short pieces). -/
def sfLit1 : String :=
  "# VOLO PROTOCOL CROSS-PROTOCOL ANALOG SCAN PROMPT\n\n## External Report To Map Into Volo\n"

/-- Literal chunk 2 of the `scan_format` f-string (written as a
concatenation of short pieces). -/
def sfLit2 : String :=
  "\n\n## Objective\nYou are a senior protocol security researcher. Your job is to analyze the external report above and determine whether the **same vulnerability class** (not necessarily exact code pattern) can occur anywhere in Volo smart contracts.\n\nYou must deeply scan Volo logic across modules, execution paths, state transitions, and invariants.\n\n## Volo Modules To Scan\n\n- `liquid_staking` (stake_" ++
  "pool, manage, fee_config, validator_pool, volo_v1/*, migration)\n- `volo-vault` (vault, manage, operation, user_entry, reward_manager, oracle, utils, vault_receipt_info, requests/*)\n- `volo-vault/sources/adaptors` (cetus, suilend, navi, momentum, receipt)\n- `volo-vault/health-limiter` (navi_limiter adaptor)\n- `volo-vault/local_dependencies` (switchboard_sui/on_demand, mmt_v3, protocol lending_core/" ++
  "ui/oracle/math/utils, suilend_d)\n\n## Core Scan Method\n\n1. **Classify the external vuln type**\n- authorization/pause/status/operator-cap bypass\n- staking/vault request/accounting/locking/loss_tolerance violation\n- pricing/fee/valuation underpayment or misdirection\n- oracle or decimal conversion errors\n- asset custody/return failure in operations/adaptors\n- health-factor or risk-limit bypass\n- denia" ++
  "l of service through valid calls (vault stuck, request buffers locked, operation status never reset)\n\n2. **Map to Volo analog surfaces**\n- Identify equivalent trust boundaries and data-flow points in Volo modules\n- Search for functionally similar logic, even if naming differs\n- Check cross-module interactions, not just one file\n\n3. **Trace full exploitability path**\n- Real entry point (public/entr" ++
  "y callable path)\n- Preconditions attacker can realistically satisfy\n- Step-by-step transition chain\n- Why current checks fail\n- Final broken invariant\n\n4. **Validate impact + likelihood strictly**\n- Must have concrete protocol impact\n- Must have realistic trigger path\n- No speculative or theoretical-only claims\n\n## Critical Invariants To Test During Scan\n\n- No unauthorized config/pause/status chan" ++
  "ges; operator freeze respected\n- Min stake amounts, fee caps, share math, request buffer integrity, locking windows\n- All borrowed DeFi assets returned; asset IDs/types consistent; operation status reset\n- Oracle price correctness, decimal conversions (1e9/1e18), staleness control\n- Health limiter enforced for risky borrowing; loss_tolerance not bypassed\n\n## Disqualification Rules (Immediate #NoVu" ++
  "lnerability)\n\nReject if ANY apply:\n\n- Not reproducible through Volo public/entry flows\n- Requires compromised admin/operator/developer/validator keys\n- Depends on impossible Sui execution assumptions\n- Only causes self-harm or non-protocol impact\n- Has no concrete impact on funds, ownership/receipts, authorization, or critical availability\n- Impact exists but no realistic likelihood\n- Likelihood e" ++
  "xists but no valid impact\n\n## Required Decision Standard\n\nA vulnerability is valid ONLY if BOTH are true:\n\n1. **Valid Impact**\n- Fund theft/drain or fee/valuation misrouting\n- Unauthorized receipt/vault corruption or asset misappropriation\n- Pricing/accounting/fee/loss_tolerance corruption\n- Unauthorized config/pause/status/operator change\n- High-confidence protocol DoS via valid calls\n\n2. **Valid" ++
  " Likelihood**\n- Reachable by untrusted actor\n- Feasible preconditions\n- Executable sequence under protocol rules\n- Not blocked by existing checks\n\nIf either fails, it is invalid.\n\n## Output Format (Strict)\n\nIf valid analog vulnerability is found in Volo, output full report in this exact structure:\n\n### Title\n[Concise vulnerability title]\n\n### Summary\n[2-3 sentence summary of mapped vulnerability a" ++
  "nd impact]\n\n### Finding Description\n[Detailed technical mapping from external report type to Volo:\n- exact Volo file/function/line references\n- root cause in Volo\n- exploit path and why protections fail]\n\n### Impact Explanation\n[Concrete Volo impact and severity justification]\n\n### Likelihood Explanation\n[Realistic exploit feasibility in Volo context]\n\n### Recommendation\n[Specific code-level mitig" ++
  "ation for Volo]\n\n### Proof of Concept\n[Reproducible Volo exploit steps with realistic state/inputs]\n\nIf no valid analog vulnerability is found, output exactly:\n`#NoVulnerability found for this question.`\n\nDo not output anything else.\n\n## Additional Guidance\n\n- Use the external report as a vulnerability-class hint, not as proof.\n- Confirm with Volo-specific code logic only.\n- Prefer false-negative " ++
  "over false-positive.\n- A claim without executable exploit chain is invalid.\n\nBegin deep analog scan now.\n"

/-- Prompt builder `scan_format`: literal chunks with `report` interpolated. -/
def scan_format (report : String) : String :=
  sfLit1 ++
  report ++
  sfLit2

/-- `p` occurs verbatim as a contiguous substring of `q`. -/
def SubstringOf (p q : String) : Prop := ∃ a b : String, q = a ++ p ++ b

/-- A substring is never longer than the string containing it. -/
theorem substringOf_length {p q : String} (h : SubstringOf p q) : p.length ≤ q.length := by
  obtain ⟨a, b, rfl⟩ := h
  rw [String.length_append, String.length_append]
  omega

/-- Substring occurrence survives prepending. -/
theorem substringOf_append_left {p q : String} (c : String) (h : SubstringOf p q) :
    SubstringOf p (c ++ q) := by
  obtain ⟨a, b, rfl⟩ := h
  exact ⟨c ++ a, b, by simp [String.append_assoc]⟩

/-- Substring occurrence survives appending. -/
theorem substringOf_append_right {p q : String} (c : String) (h : SubstringOf p q) :
    SubstringOf p (q ++ c) := by
  obtain ⟨a, b, rfl⟩ := h
  exact ⟨a, b ++ c, by simp [String.append_assoc]⟩

/-- A string occurs at the end of anything it is appended to. -/
theorem substringOf_after (a p : String) : SubstringOf p (a ++ p) :=
  ⟨a, "", (String.append_empty _).symm⟩

/-- Substring occurrence is transitive. -/
theorem SubstringOf.trans {p q r : String} (h1 : SubstringOf p q) (h2 : SubstringOf q r) :
    SubstringOf p r := by
  obtain ⟨a, b, rfl⟩ := h1
  obtain ⟨c, d, rfl⟩ := h2
  exact ⟨c ++ a, b ++ d, by simp [String.append_assoc]⟩

/-- Every member of a list occurs in the list's comma-separated rendering. -/
theorem substringOf_pyStrElems {p : String} {xs : List String} (h : p ∈ xs) :
    SubstringOf p (pyStrElems xs) := by
  induction xs with
  | nil => cases h
  | cons x ys ih =>
    cases ys with
    | nil =>
      rcases List.mem_cons.mp h with rfl | h2
      · exact ⟨"\x27", "\x27", rfl⟩
      · cases h2
    | cons y zs =>
      rcases List.mem_cons.mp h with rfl | h2
      · exact ⟨"\x27", "\x27, " ++ pyStrElems (y :: zs),
          by simp [pyStrElems, pyQuote, String.append_assoc]⟩
      · exact substringOf_append_left _ (ih h2)

/-- Every member of a list occurs in the list's Python `str` rendering. -/
theorem substringOf_pyStr {p : String} {xs : List String} (h : p ∈ xs) :
    SubstringOf p (pyStr xs) :=
  substringOf_append_right "]" (substringOf_append_left "[" (substringOf_pyStrElems h))

/-- The rendering of a list of strings is at least as long as the total
length of its elements. -/
theorem pyStrElems_length_ge (xs : List String) :
    (xs.map String.length).sum ≤ (pyStrElems xs).length := by
  induction xs with
  | nil => simp [pyStrElems]
  | cons x ys ih =>
    cases ys with
    | nil =>
      have h1 : ("\x27" : String).length = 1 := rfl
      simp only [pyStrElems, pyQuote, String.length_append, List.map_cons, List.map_nil,
        List.sum_cons, List.sum_nil, h1]
      omega
    | cons y zs =>
      have h0 : pyStrElems (x :: y :: zs) = pyQuote x ++ ", " ++ pyStrElems (y :: zs) := rfl
      rw [h0, String.length_append, String.length_append]
      simp only [pyQuote, String.length_append, List.map_cons, List.sum_cons]
      simp only [List.map_cons, List.sum_cons] at ih
      omega

/-- `pyStr` is at least as long as the total length of the elements. -/
theorem pyStr_length_ge (xs : List String) :
    (xs.map String.length).sum ≤ (pyStr xs).length := by
  have h := pyStrElems_length_ge xs
  rw [pyStr, String.length_append, String.length_append]
  omega

set_option maxRecDepth 4000 in
/-- The registry paths total 16594 characters. -/
theorem scope_len_sum : (scope_files.map String.length).sum = 16594 := by decide

/-- Lower bound on the length of the rendered scope registry. -/
theorem pyStr_scope_length_lb : 16594 ≤ (pyStr scope_files).length :=
  scope_len_sum ▸ pyStr_length_ge scope_files

set_option maxRecDepth 4000 in
/-- Length of the `question_generator` output at the one-character input. -/
theorem qg_x_length : (question_generator "x").length = 5313 := by
  simp only [question_generator, qgLit1, qgLit2, qgLit3, qgLit4, qgLit5, qgLit6, qgLit7,
    String.length_append]
  decide

set_option maxRecDepth 4000 in
/-- Length of the `audit_format` output at the one-character input. -/
theorem af_x_length : (audit_format "x").length = 6286 := by
  simp only [audit_format, afLit1, afLit2, afLit3, String.length_append]
  decide

set_option maxRecDepth 4000 in
/-- Length of the `scan_format` output at the one-character input. -/
theorem sf_x_length : (scan_format "x").length = 4593 := by
  simp only [scan_format, sfLit1, sfLit2, String.length_append]
  decide

/-- Claim C1: for every run-counter string other than `"0"` that parses as an
integer, the base URL is the mirror URL
`https://deepwiki.com/grass-dev-pa/volo-smart-contracts-` followed by the
cyclic index of the run counter with bound 30, zero-padded to three digits;
in particular run-counter `"31"` yields a URL ending in `-001` and `"30"`
yields a URL ending in `-030`. -/
theorem c1_mirror_url_from_cyclic_index :
    (∀ (s : String) (n : Int), s ≠ "0" → pyInt s = some n →
        computeBaseURL s
          = some ("https://deepwiki.com/grass-dev-pa/volo-smart-contracts-"
              ++ pad3 (get_cyclic_index n MAX_REPO))) ∧
    computeBaseURL "31" = some "https://deepwiki.com/grass-dev-pa/volo-smart-contracts-001" ∧
    computeBaseURL "30" = some "https://deepwiki.com/grass-dev-pa/volo-smart-contracts-030" := by
  refine ⟨?_, rfl, rfl⟩
  intro s n hs hp
  unfold computeBaseURL
  rw [if_neg (by simpa using hs), hp]
  rfl

/-- Claim C2: the sentinel run-counter `"0"` (the default when the variable is
absent) resolves to exactly the canonical URL. -/
theorem c2_sentinel_zero_canonical_url :
    computeBaseURL "0" = some "https://deepwiki.com/Sui-Volo/volo-smart-contracts" := rfl

/-- Claim C3: for `r ≥ 1` and `m ≥ 1`, `get_cyclic_index r m` equals
`((r - 1) mod m) + 1`, lies in `[1, m]`, and `get_cyclic_index 1 m = 1`. -/
theorem c3_cyclic_index_range (r m : Int) (h1 : 1 ≤ r) (h2 : 1 ≤ m) :
    get_cyclic_index r m = (r - 1) % m + 1 ∧
    1 ≤ get_cyclic_index r m ∧ get_cyclic_index r m ≤ m ∧
    get_cyclic_index 1 m = 1 := by
  refine ⟨rfl, ?_, ?_, ?_⟩
  · have h3 := Int.emod_nonneg (r - 1) (by omega : m ≠ 0)
    unfold get_cyclic_index
    omega
  · have h3 := Int.emod_lt_of_pos (r - 1) (by omega : 0 < m)
    unfold get_cyclic_index
    omega
  · unfold get_cyclic_index
    rw [Int.sub_self, Int.zero_emod]
    norm_num

/-- Claim C3 witness: the range property at `r = 7`, `m = 3`. -/
theorem c3_cyclic_index_range_witness :
    get_cyclic_index 7 3 = (7 - 1) % 3 + 1 ∧
    1 ≤ get_cyclic_index 7 3 ∧ get_cyclic_index 7 3 ≤ 3 ∧
    get_cyclic_index 1 3 = 1 :=
  c3_cyclic_index_range 7 3 (by norm_num) (by norm_num)

/-- Claim C4: the cyclic index is periodic with period the bound, and
`get_cyclic_index (m + 1) m = 1` (wraparound). -/
theorem c4_cyclic_index_periodic (r m : Int) (h1 : 1 ≤ r) (h2 : 1 ≤ m) :
    get_cyclic_index r m = get_cyclic_index (r + m) m ∧
    get_cyclic_index (m + 1) m = 1 := by
  constructor
  · unfold get_cyclic_index
    have h3 : r + m - 1 = r - 1 + m := by ring
    rw [h3]
    simp [Int.add_emod]
  · unfold get_cyclic_index
    have h3 : m + 1 - 1 = m := by ring
    rw [h3, Int.emod_self]
    norm_num

/-- Claim C4 witness: periodicity and wraparound at `r = 5`, `m = 3`. -/
theorem c4_cyclic_index_periodic_witness :
    get_cyclic_index 5 3 = get_cyclic_index (5 + 3) 3 ∧
    get_cyclic_index (3 + 1) 3 = 1 :=
  c4_cyclic_index_periodic 5 3 (by norm_num) (by norm_num)

/-- Claim C5: a run-counter string other than `"0"` that does not parse as an
integer makes base-URL resolution fail (the `ValueError` propagates; no URL
is produced and no silent fallback occurs). -/
theorem c5_unparseable_run_counter_errors (s : String) (hs : s ≠ "0")
    (hp : pyInt s = none) : computeBaseURL s = none := by
  unfold computeBaseURL
  rw [if_neg (by simpa using hs), hp]

/-- Claim C5 witness: the run-counter string `"abc"` does not parse and
yields no base URL. -/
theorem c5_unparseable_run_counter_errors_witness : computeBaseURL "abc" = none :=
  c5_unparseable_run_counter_errors "abc" (by decide) (by decide)

/-- Claim C6, amended: only the `validation_format` builder embeds the scope
registry.  Its output contains the rendered `scope_files` registry for every
input; a substring is never longer than its container, and the outputs of
`question_generator`, `audit_format` and `scan_format` at input `"x"` are
each strictly shorter than the rendered registry, so none of them can
contain it. -/
theorem c6_only_validation_embeds_scope_registry :
    (∀ s : String, SubstringOf (pyStr scope_files) (validation_format s)) ∧
    (∀ p q : String, SubstringOf p q → p.length ≤ q.length) ∧
    (question_generator "x").length < (pyStr scope_files).length ∧
    (audit_format "x").length < (pyStr scope_files).length ∧
    (scan_format "x").length < (pyStr scope_files).length := by
  refine ⟨?_, fun p q h => substringOf_length h, ?_, ?_, ?_⟩
  · intro s
    exact substringOf_append_right vfLit3
      (substringOf_after ((vfLit1 ++ s) ++ vfLit2) (pyStr scope_files))
  · rw [qg_x_length]
    exact lt_of_lt_of_le (by norm_num) pyStr_scope_length_lb
  · rw [af_x_length]
    exact lt_of_lt_of_le (by norm_num) pyStr_scope_length_lb
  · rw [sf_x_length]
    exact lt_of_lt_of_le (by norm_num) pyStr_scope_length_lb

/-- Claim C6 counterexample: the output of `question_generator` at input
`"x"` does not contain the rendered scope registry (it is shorter than the
registry), refuting the claim that all four builders embed it. -/
theorem c6_counterexample_qg_lacks_scope_registry :
    SubstringOf (pyStr scope_files) (question_generator "x") = False := by
  apply eq_false
  intro h
  have hle := substringOf_length h
  rw [qg_x_length] at hle
  have hlb := pyStr_scope_length_lb
  omega

/-- Claim C7: every builder input is inserted verbatim: the output of
`question_generator` contains its argument as a substring, and so does the
output of `validation_format`. -/
theorem c7_builders_contain_input (s : String) :
    SubstringOf s (question_generator s) ∧ SubstringOf s (validation_format s) := by
  constructor
  · exact substringOf_append_right qgLit7 (substringOf_append_right s
      (substringOf_append_right qgLit6 (substringOf_append_right s
      (substringOf_append_right qgLit5 (substringOf_append_right s
      (substringOf_append_right qgLit4 (substringOf_append_right s
      (substringOf_append_right qgLit3 (substringOf_append_right s
      (substringOf_append_right qgLit2 (substringOf_after qgLit1 s)))))))))))
  · exact substringOf_append_right vfLit3 (substringOf_append_right (pyStr scope_files)
      (substringOf_append_right vfLit2 (substringOf_after vfLit1 s)))

/-- Claim C8: the output of `validation_format` contains every path of the
static `scope_files` registry, for every report input. -/
theorem c8_validation_contains_every_scope_path (s p : String)
    (hp : p ∈ scope_files) : SubstringOf p (validation_format s) := by
  have h1 : SubstringOf p (pyStr scope_files) := substringOf_pyStr hp
  have h2 : SubstringOf (pyStr scope_files) (validation_format s) :=
    substringOf_append_right vfLit3
      (substringOf_after ((vfLit1 ++ s) ++ vfLit2) (pyStr scope_files))
  exact h1.trans h2

/-- Claim C8 witness: the first registry path occurs in the output at a
concrete report input. -/
theorem c8_validation_contains_every_scope_path_witness :
    SubstringOf "liquid_staking/sources/stake_pool.move" (validation_format "a report") :=
  c8_validation_contains_every_scope_path "a report"
    "liquid_staking/sources/stake_pool.move" (by decide)

/-- Claim C9: the four prompt builders are deterministic pure functions:
identical inputs give byte-identical outputs. -/
theorem c9_builders_deterministic (a b : String) (h : a = b) :
    question_generator a = question_generator b ∧
    validation_format a = validation_format b ∧
    audit_format a = audit_format b ∧
    scan_format a = scan_format b := by
  subst h
  exact ⟨rfl, rfl, rfl, rfl⟩

/-- Claim C9 witness: determinism instantiated at the input `"x"`. -/
theorem c9_builders_deterministic_witness :
    question_generator "x" = question_generator "x" ∧
    validation_format "x" = validation_format "x" ∧
    audit_format "x" = audit_format "x" ∧
    scan_format "x" = scan_format "x" :=
  c9_builders_deterministic "x" "x" rfl

/-- Claim C10: the sentinel check is string equality with `"0"`: a
run-counter string other than `"0"` that parses to the integer 0 (such as
`"00"`) resolves to the mirror URL ending in `-030` (the cyclic index of 0
with bound 30 is 30 under floor modulo), not to the canonical URL. -/
theorem c10_sentinel_is_string_equality (s : String) (hs : s ≠ "0")
    (hp : pyInt s = some 0) :
    computeBaseURL s = some "https://deepwiki.com/grass-dev-pa/volo-smart-contracts-030" ∧
    computeBaseURL s ≠ some "https://deepwiki.com/Sui-Volo/volo-smart-contracts" := by
  have h1 : computeBaseURL s
      = some "https://deepwiki.com/grass-dev-pa/volo-smart-contracts-030" := by
    unfold computeBaseURL
    rw [if_neg (by simpa using hs), hp]
    rfl
  exact ⟨h1, by rw [h1]; decide⟩

/-- Claim C10 witness: the run-counter string `"00"` parses to 0 yet yields
the mirror URL, not the canonical one. -/
theorem c10_sentinel_is_string_equality_witness :
    computeBaseURL "00" = some "https://deepwiki.com/grass-dev-pa/volo-smart-contracts-030" ∧
    computeBaseURL "00" ≠ some "https://deepwiki.com/Sui-Volo/volo-smart-contracts" :=
  c10_sentinel_is_string_equality "00" (by decide) (by decide)

end VLSS
